import Mathlib

/-!
# Bounded connection queue and worker loop of the multithreaded HTTP server

A shallow embedding of `connection_queue.c` and of the thread and shutdown
logic of `http_server.c`.

* Every queue function runs between `pthread_mutex_lock` and
  `pthread_mutex_unlock`, so a call is a sequence of critical sections that
  other threads cannot interleave with.  A call has one section when it never
  waits; a call that reaches `pthread_cond_wait` ends its section there
  (outcome `blocked`, lock released) and continues later with the section that
  starts when `pthread_cond_wait` returns (the `_wake` functions).
* The return codes of the pthread calls are inputs (`pthread_rets`), `0`
  meaning success, so that every `if (ret != 0)` branch of the source is kept.
* `CAPACITY` and the fields of `connection_queue_t` come from
  `connection_queue.h`; `CAPACITY` is a parameter, the `int` fields are
  integers (no reachable value leaves `0 .. CAPACITY`, so width plays no role).
* `client_fds` is a list of `CAPACITY` handles.  An access outside the array is
  undefined in C and does not happen in a reachable state (see the index
  invariant); the model is total there: such a store changes nothing and such a
  load yields 0.
* The condition variables are modelled by the threads blocked on them:
  `pthread_cond_broadcast` unblocks all of them, `pthread_cond_signal` one.
-/

set_option autoImplicit false

namespace HttpServer

/-! ## Data model -/

/-- The data fields of the queue struct (the lock and the two condition
variables are represented by the section structure and by `CondOp`). -/
structure connection_queue_t where
  client_fds : List Int
  length : Int
  read_idx : Int
  write_idx : Int
  shutdown : Int
  deriving DecidableEq, Repr

/-- Return codes of the pthread calls of one critical section. -/
structure pthread_rets where
  lock : Int
  cond_wait : Int
  cond_signal : Int
  broadcast_empty : Int
  broadcast_full : Int
  unlock : Int
  deriving DecidableEq, Repr

/-- Return codes of the three initialisation calls of `connection_queue_init`. -/
structure init_rets where
  mutex_init : Int
  cond_init_empty : Int
  cond_init_full : Int
  deriving DecidableEq, Repr

/-- Every pthread call succeeds. -/
def pthread_ok : pthread_rets := ⟨0, 0, 0, 0, 0, 0⟩

/-- Every initialisation call succeeds. -/
def init_ok : init_rets := ⟨0, 0, 0⟩

/-- How a critical section ends for the calling thread. -/
inductive Outcome where
  /-- The function returned this value. -/
  | returned (v : Int)
  /-- The caller is suspended inside `pthread_cond_wait`. -/
  | blocked
  deriving DecidableEq, Repr

/-- Successful wake-up calls on the two condition variables. -/
inductive CondOp where
  | signal_empty
  | signal_full
  | broadcast_empty
  | broadcast_full
  deriving DecidableEq, Repr

/-- Result of one critical section: the queue afterwards, how the section
ended, and the wake-up calls that succeeded in it, in order. -/
structure Step where
  queue : connection_queue_t
  out : Outcome
  wakes : List CondOp
  deriving DecidableEq, Repr

/-! ## connection_queue.c -/

/-- Model of connection_queue_init (lines 6-37): the queue after the
assignments and the returned code. -/
def connection_queue_init (CAPACITY : Nat) (r : init_rets) : connection_queue_t × Int :=
  let queue : connection_queue_t :=
    { client_fds := List.replicate CAPACITY (-1)
      length := 0
      read_idx := 0
      write_idx := 0
      shutdown := 0 }
  if r.mutex_init ≠ 0 then (queue, -1)
  else if r.cond_init_empty ≠ 0 then (queue, -1)
  else if r.cond_init_full ≠ 0 then (queue, -1)
  else (queue, 0)

/-- Lines 48-82 of connection_enqueue, entered at the loop test with the lock
held: wait while the queue is full, otherwise store and signal. -/
def enqueue_from_loop (CAPACITY : Nat) (p : pthread_rets) (queue : connection_queue_t)
    (connection_fd : Int) : Step :=
  if queue.length = (CAPACITY : Int) then
    ⟨queue, .blocked, []⟩
  else
    let q1 := { queue with client_fds := queue.client_fds.set queue.write_idx.toNat connection_fd }
    let q2 := { q1 with write_idx := Int.tmod (q1.write_idx + 1) (CAPACITY : Int) }
    let q3 := { q2 with length := q2.length + 1 }
    if p.cond_signal ≠ 0 then ⟨q3, .returned (-1), []⟩
    else if p.unlock ≠ 0 then ⟨q3, .returned (-1), [.signal_empty]⟩
    else ⟨q3, .returned 0, [.signal_empty]⟩

/-- Model of connection_enqueue (lines 39-83) from its entry up to its return
or its first wait. -/
def connection_enqueue (CAPACITY : Nat) (p : pthread_rets) (queue : connection_queue_t)
    (connection_fd : Int) : Step :=
  if p.lock ≠ 0 then ⟨queue, .returned (-1), []⟩
  else enqueue_from_loop CAPACITY p queue connection_fd

/-- Continuation of connection_enqueue when `pthread_cond_wait` (line 49)
returns: lines 50-62, then the loop test again. -/
def connection_enqueue_wake (CAPACITY : Nat) (p : pthread_rets) (queue : connection_queue_t)
    (connection_fd : Int) : Step :=
  if p.cond_wait ≠ 0 then ⟨queue, .returned (-1), []⟩
  else if queue.shutdown ≠ 0 then
    if p.unlock ≠ 0 then ⟨queue, .returned (-1), []⟩
    else ⟨queue, .returned (-1), []⟩
  else enqueue_from_loop CAPACITY p queue connection_fd

/-- Lines 93-128 of connection_dequeue, entered at the loop test with the lock
held: wait while the queue is empty, otherwise extract and signal. -/
def dequeue_from_loop (CAPACITY : Nat) (p : pthread_rets) (queue : connection_queue_t) : Step :=
  if queue.length = 0 then
    ⟨queue, .blocked, []⟩
  else
    let extracted_fd := queue.client_fds.getD queue.read_idx.toNat 0
    let q1 := { queue with read_idx := Int.tmod (queue.read_idx + 1) (CAPACITY : Int) }
    let q2 := { q1 with length := q1.length - 1 }
    if p.cond_signal ≠ 0 then ⟨q2, .returned (-1), []⟩
    else if p.unlock ≠ 0 then ⟨q2, .returned (-1), [.signal_full]⟩
    else ⟨q2, .returned extracted_fd, [.signal_full]⟩

/-- Model of connection_dequeue (lines 85-129) from its entry up to its return
or its first wait. -/
def connection_dequeue (CAPACITY : Nat) (p : pthread_rets) (queue : connection_queue_t) : Step :=
  if p.lock ≠ 0 then ⟨queue, .returned (-1), []⟩
  else dequeue_from_loop CAPACITY p queue

/-- Continuation of connection_dequeue when `pthread_cond_wait` (line 94)
returns: lines 95-107, then the loop test again. -/
def connection_dequeue_wake (CAPACITY : Nat) (p : pthread_rets) (queue : connection_queue_t) : Step :=
  if p.cond_wait ≠ 0 then ⟨queue, .returned (-1), []⟩
  else if queue.shutdown ≠ 0 then
    if p.unlock ≠ 0 then ⟨queue, .returned (-1), []⟩
    else ⟨queue, .returned (-1), []⟩
  else dequeue_from_loop CAPACITY p queue

/-- Model of connection_queue_shutdown (lines 131-164). -/
def connection_queue_shutdown (p : pthread_rets) (queue : connection_queue_t) : Step :=
  if p.lock ≠ 0 then ⟨queue, .returned (-1), []⟩
  else
    let q1 := { queue with shutdown := 1 }
    if p.broadcast_empty ≠ 0 then ⟨q1, .returned (-1), []⟩
    else if p.broadcast_full ≠ 0 then ⟨q1, .returned (-1), [.broadcast_empty]⟩
    else if p.unlock ≠ 0 then ⟨q1, .returned (-1), [.broadcast_empty, .broadcast_full]⟩
    else ⟨q1, .returned 0, [.broadcast_empty, .broadcast_full]⟩

/-- Return codes of the three destroy calls of `connection_queue_free`. -/
structure free_rets where
  mutex_destroy : Int
  cond_destroy_empty : Int
  cond_destroy_full : Int
  deriving DecidableEq, Repr

/-- Model of connection_queue_free (lines 166-188): the data fields are not
touched; the returned code. -/
def connection_queue_free (r : free_rets) (queue : connection_queue_t) :
    connection_queue_t × Int :=
  if r.mutex_destroy ≠ 0 then (queue, -1)
  else if r.cond_destroy_empty ≠ 0 then (queue, -1)
  else if r.cond_destroy_full ≠ 0 then (queue, -1)
  else (queue, 0)

/-! ## Sequences of critical sections -/

/-- The critical sections a thread can run on the queue. -/
inductive Call where
  /-- A new call `connection_enqueue(queue, fd)`. -/
  | enqueue (fd : Int)
  /-- A suspended `connection_enqueue(queue, fd)` resumes from its wait. -/
  | enqueue_wake (fd : Int)
  /-- A new call `connection_dequeue(queue)`. -/
  | dequeue
  /-- A suspended `connection_dequeue(queue)` resumes from its wait. -/
  | dequeue_wake
  /-- A call `connection_queue_shutdown(queue)`. -/
  | shutdown
  deriving DecidableEq, Repr

/-- Run one critical section. -/
def Call.run (CAPACITY : Nat) (p : pthread_rets) (queue : connection_queue_t) : Call → Step
  | .enqueue fd => connection_enqueue CAPACITY p queue fd
  | .enqueue_wake fd => connection_enqueue_wake CAPACITY p queue fd
  | .dequeue => connection_dequeue CAPACITY p queue
  | .dequeue_wake => connection_dequeue_wake CAPACITY p queue
  | .shutdown => connection_queue_shutdown p queue

/-- The queue after a sequence of critical sections, each with its own pthread
return codes. -/
def run_calls (CAPACITY : Nat) (queue : connection_queue_t) :
    List (Call × pthread_rets) → connection_queue_t
  | [] => queue
  | (c, p) :: cs => run_calls CAPACITY (c.run CAPACITY p queue).queue cs

/-! ## Invariants of the circular buffer and its contents -/

/-- The bound on the number of stored handles. -/
def length_inv (CAPACITY : Nat) (q : connection_queue_t) : Prop :=
  0 ≤ q.length ∧ q.length ≤ (CAPACITY : Int)

/-- The index invariant of the circular buffer, with the size of the array. -/
def index_inv (CAPACITY : Nat) (q : connection_queue_t) : Prop :=
  length_inv CAPACITY q ∧
  (0 ≤ q.read_idx ∧ q.read_idx < (CAPACITY : Int)) ∧
  (0 ≤ q.write_idx ∧ q.write_idx < (CAPACITY : Int)) ∧
  q.write_idx = (q.read_idx + q.length) % (CAPACITY : Int) ∧
  q.client_fds.length = CAPACITY

/-- The handles held by the queue, oldest first: the `length` slots starting at
`read_idx`, taken circularly. -/
def contents (CAPACITY : Nat) (q : connection_queue_t) : List Int :=
  (List.range q.length.toNat).map
    (fun i => q.client_fds.getD ((q.read_idx.toNat + i) % CAPACITY) 0)

/-- No call of the sequence waits and the sequence has only new enqueue and
dequeue calls: each enqueue finds `length < CAPACITY`, each dequeue finds
`length > 0`.  All pthread calls succeed. -/
def never_waits (CAPACITY : Nat) (q : connection_queue_t) : List Call → Prop
  | [] => True
  | .enqueue fd :: cs =>
      q.length < (CAPACITY : Int) ∧
        never_waits CAPACITY (connection_enqueue CAPACITY pthread_ok q fd).queue cs
  | .dequeue :: cs =>
      0 < q.length ∧ never_waits CAPACITY (connection_dequeue CAPACITY pthread_ok q).queue cs
  | _ :: _ => False

instance never_waits_decidable (CAPACITY : Nat) :
    (q : connection_queue_t) → (cs : List Call) → Decidable (never_waits CAPACITY q cs)
  | _, [] => isTrue trivial
  | q, .enqueue fd :: cs =>
      have := never_waits_decidable CAPACITY (connection_enqueue CAPACITY pthread_ok q fd).queue cs
      inferInstanceAs (Decidable (_ ∧ _))
  | q, .dequeue :: cs =>
      have := never_waits_decidable CAPACITY (connection_dequeue CAPACITY pthread_ok q).queue cs
      inferInstanceAs (Decidable (_ ∧ _))
  | _, .enqueue_wake _ :: _ => isFalse (fun h => h)
  | _, .dequeue_wake :: _ => isFalse (fun h => h)
  | _, .shutdown :: _ => isFalse (fun h => h)

/-- The handles passed to the enqueue calls of a sequence that returned 0, in
call order; the sequence is run from `q` with all pthread calls succeeding. -/
def handles_in (CAPACITY : Nat) (q : connection_queue_t) : List Call → List Int
  | [] => []
  | .enqueue fd :: cs =>
      if (connection_enqueue CAPACITY pthread_ok q fd).out = .returned 0 then
        fd :: handles_in CAPACITY (connection_enqueue CAPACITY pthread_ok q fd).queue cs
      else handles_in CAPACITY (connection_enqueue CAPACITY pthread_ok q fd).queue cs
  | c :: cs => handles_in CAPACITY (c.run CAPACITY pthread_ok q).queue cs

/-- The values returned by the dequeue calls of a sequence run from `q` with
all pthread calls succeeding, in call order. -/
def handles_out (CAPACITY : Nat) (q : connection_queue_t) : List Call → List Int
  | [] => []
  | .dequeue :: cs =>
      match (connection_dequeue CAPACITY pthread_ok q).out with
      | .returned v => v :: handles_out CAPACITY (connection_dequeue CAPACITY pthread_ok q).queue cs
      | .blocked => handles_out CAPACITY (connection_dequeue CAPACITY pthread_ok q).queue cs
  | c :: cs => handles_out CAPACITY (c.run CAPACITY pthread_ok q).queue cs

/-- The number of enqueue calls in a sequence. -/
def enqueue_calls : List Call → Nat
  | [] => 0
  | .enqueue _ :: cs => enqueue_calls cs + 1
  | _ :: cs => enqueue_calls cs

/-- The number of dequeue calls in a sequence. -/
def dequeue_calls : List Call → Nat
  | [] => 0
  | .dequeue :: cs => dequeue_calls cs + 1
  | _ :: cs => dequeue_calls cs

/-! ## Threads blocked on the condition variables -/

/-- Where a thread that is inside a queue call stands. -/
inductive Waiter where
  /-- Suspended in `pthread_cond_wait(&queue->queue_full, ...)`, line 49. -/
  | enqueue_blocked (fd : Int)
  /-- Suspended in `pthread_cond_wait(&queue->queue_empty, ...)`, line 94. -/
  | dequeue_blocked
  /-- Unblocked from `queue_full`; continues at line 50 once it holds the lock. -/
  | enqueue_woken (fd : Int)
  /-- Unblocked from `queue_empty`; continues at line 95 once it holds the lock. -/
  | dequeue_woken
  /-- The call has returned this value. -/
  | finished (ret : Int)
  deriving DecidableEq, Repr

/-- The thread is suspended in `pthread_cond_wait`. -/
def Waiter.is_blocked : Waiter → Bool
  | .enqueue_blocked _ => true
  | .dequeue_blocked => true
  | _ => false

/-- The thread has been unblocked and has yet to continue its call. -/
def Waiter.is_woken : Waiter → Bool
  | .enqueue_woken _ => true
  | .dequeue_woken => true
  | _ => false

/-- Effect of `pthread_cond_broadcast(&queue->queue_full)`: every thread
blocked on `queue_full` is unblocked. -/
def wake_all_full : List Waiter → List Waiter
  | [] => []
  | .enqueue_blocked fd :: ts => .enqueue_woken fd :: wake_all_full ts
  | t :: ts => t :: wake_all_full ts

/-- Effect of `pthread_cond_broadcast(&queue->queue_empty)`: every thread
blocked on `queue_empty` is unblocked. -/
def wake_all_empty : List Waiter → List Waiter
  | [] => []
  | .dequeue_blocked :: ts => .dequeue_woken :: wake_all_empty ts
  | t :: ts => t :: wake_all_empty ts

/-- Effect of `pthread_cond_signal(&queue->queue_full)`: one thread blocked on
`queue_full`, if there is one, is unblocked (here the first of the list). -/
def wake_one_full : List Waiter → List Waiter
  | [] => []
  | .enqueue_blocked fd :: ts => .enqueue_woken fd :: ts
  | t :: ts => t :: wake_one_full ts

/-- Effect of `pthread_cond_signal(&queue->queue_empty)`: one thread blocked on
`queue_empty`, if there is one, is unblocked (here the first of the list). -/
def wake_one_empty : List Waiter → List Waiter
  | [] => []
  | .dequeue_blocked :: ts => .dequeue_woken :: ts
  | t :: ts => t :: wake_one_empty ts

/-- Effect of one wake-up call on the threads. -/
def CondOp.apply : CondOp → List Waiter → List Waiter
  | .signal_empty => wake_one_empty
  | .signal_full => wake_one_full
  | .broadcast_empty => wake_all_empty
  | .broadcast_full => wake_all_full

/-- Effect of the wake-up calls of a critical section, in order. -/
def apply_wakes : List CondOp → List Waiter → List Waiter
  | [], ts => ts
  | op :: ops, ts => apply_wakes ops (op.apply ts)

/-- One queue together with the threads that are inside a call on it. -/
structure System where
  queue : connection_queue_t
  threads : List Waiter
  deriving DecidableEq, Repr

/-- What can happen next in a system. -/
inductive Action where
  /-- Thread `i`, if it has been woken, gets the lock and continues its call. -/
  | resume (i : Nat)
  /-- Some other thread runs a critical section on the queue. -/
  | outside (c : Call)
  deriving DecidableEq, Repr

/-- Thread `i` continues its call from `pthread_cond_wait`; a thread that is
still blocked or has finished does nothing. -/
def System.resume (CAPACITY : Nat) (p : pthread_rets) (s : System) (i : Nat) : System :=
  match s.threads[i]? with
  | some (.enqueue_woken fd) =>
      let st := connection_enqueue_wake CAPACITY p s.queue fd
      let me : Waiter :=
        match st.out with
        | .returned v => .finished v
        | .blocked => .enqueue_blocked fd
      ⟨st.queue, apply_wakes st.wakes (s.threads.set i me)⟩
  | some .dequeue_woken =>
      let st := connection_dequeue_wake CAPACITY p s.queue
      let me : Waiter :=
        match st.out with
        | .returned v => .finished v
        | .blocked => .dequeue_blocked
      ⟨st.queue, apply_wakes st.wakes (s.threads.set i me)⟩
  | _ => s

/-- A critical section run by a thread outside the system. -/
def System.outside (CAPACITY : Nat) (p : pthread_rets) (s : System) (c : Call) : System :=
  let st := c.run CAPACITY p s.queue
  ⟨st.queue, apply_wakes st.wakes s.threads⟩

/-- One action. -/
def System.step (CAPACITY : Nat) (p : pthread_rets) (s : System) : Action → System
  | .resume i => s.resume CAPACITY p i
  | .outside c => s.outside CAPACITY p c

/-- A schedule of actions, each with its own pthread return codes. -/
def System.run (CAPACITY : Nat) (s : System) : List (Action × pthread_rets) → System
  | [] => s
  | (a, p) :: rest => System.run CAPACITY (s.step CAPACITY p a) rest

/-! ## http_server.c -/

/-- The number of worker threads. -/
def N_THREADS : Nat := 5

/-- Model of handle_sigint (lines 23-25): the new value of `keep_going`. -/
def handle_sigint (_signo : Int) : Int := 0

/-- Calls made by a worker thread, in order. -/
inductive Event where
  | connection_dequeue
  | read_http_request (client_fd : Int)
  | write_http_response (client_fd : Int)
  | close (client_fd : Int)
  | fprintf_stderr (msg : String)
  | perror (msg : String)
  deriving DecidableEq, Repr

/-- How a thread function or `main` ends. -/
inductive Ending where
  /-- The process ends with this status, by `exit(status)` or by the return of `main`. -/
  | process_exit (status : Int)
  /-- The thread start function returns; only this thread ends. -/
  | thread_return
  /-- The loop is still running when the listed iterations are used up. -/
  | unfinished
  deriving DecidableEq, Repr

/-- What one iteration of the worker loop observes: `keep_going` at the loop
test and the values returned by the calls it makes. -/
structure worker_env where
  keep_going : Int
  dequeue_ret : Int
  read_ret : Int
  write_ret : Int
  close_ret : Int
  deriving DecidableEq, Repr

/-- Model of consumer_thread_func (lines 28-67), one list element per loop
iteration. -/
def consumer_thread_func : List worker_env → List Event × Ending
  | [] => ([], .unfinished)
  | e :: rest =>
    if e.keep_going ≠ 0 then
      let client_fd := e.dequeue_ret
      if client_fd = -1 then
        ([.connection_dequeue], .process_exit 1)
      else if e.read_ret = 1 then
        ([.connection_dequeue, .read_http_request client_fd,
          .fprintf_stderr "Error reading http request\n", .close client_fd], .process_exit 1)
      else if e.write_ret = 1 then
        ([.connection_dequeue, .read_http_request client_fd, .write_http_response client_fd,
          .fprintf_stderr "Error writing http request\n", .close client_fd], .process_exit 1)
      else if e.close_ret = -1 then
        ([.connection_dequeue, .read_http_request client_fd, .write_http_response client_fd,
          .close client_fd, .perror "close"], .process_exit 1)
      else
        ([.connection_dequeue, .read_http_request client_fd, .write_http_response client_fd,
          .close client_fd] ++ (consumer_thread_func rest).1, (consumer_thread_func rest).2)
    else ([], .thread_return)

/-- What one iteration of the accept loop of `main` observes. -/
structure accept_env where
  keep_going : Int
  accept_ret : Int
  errno_is_EINTR : Bool
  enqueue_ret : Int
  deriving DecidableEq, Repr

/-- How the accept loop of `main` ends. -/
inductive LoopEnd where
  /-- Control reaches line 193. -/
  | left_loop
  /-- The function `main` returns this status from inside the loop. -/
  | returned (status : Int)
  /-- The loop is still running when the listed iterations are used up. -/
  | unfinished
  deriving DecidableEq, Repr

/-- Model of the accept loop of main (lines 169-191). -/
def accept_loop : List accept_env → LoopEnd
  | [] => .unfinished
  | e :: rest =>
    if e.keep_going ≠ 0 then
      if e.accept_ret = -1 then
        if ¬ e.errno_is_EINTR then .returned 1
        else .left_loop
      else if e.enqueue_ret = -1 then .left_loop
      else accept_loop rest
    else .left_loop

/-- The values `main` gets from its arguments and from the calls it makes. -/
structure main_env where
  argc : Int
  sigfillset_handler : Int
  sigaction_ret : Int
  getaddrinfo_ret : Int
  socket_ret : Int
  bind_ret : Int
  listen_ret : Int
  sigfillset_new : Int
  sigprocmask_block : Int
  queue_init_ret : Int
  pthread_create_ret : Nat → Int
  sigprocmask_restore : Int
  accepts : List accept_env
  queue_shutdown_ret : Int
  pthread_join_ret : Nat → Int
  queue_free_ret : Int
  close_ret : Int

/-- The join loop of main (lines 201-207): the resulting `exit_code`. -/
def join_threads (pthread_join_ret : Nat → Int) : Int :=
  (List.range N_THREADS).foldl
    (fun exit_code i => if pthread_join_ret i ≠ 0 then 1 else exit_code) 0

/-- Model of main (lines 69-224): the exit status it returns. -/
def main (e : main_env) : Ending :=
  if e.argc ≠ 3 then .process_exit 1
  else if e.sigfillset_handler = -1 then .process_exit 1
  else if e.sigaction_ret = -1 then .process_exit 1
  else if e.getaddrinfo_ret ≠ 0 then .process_exit 1
  else if e.socket_ret = -1 then .process_exit 1
  else if e.bind_ret = -1 then .process_exit 1
  else if e.listen_ret = -1 then .process_exit 1
  else if e.sigfillset_new = -1 then .process_exit 1
  else if e.sigprocmask_block = -1 then .process_exit 1
  else if e.queue_init_ret = -1 then .process_exit 1
  else if (List.range N_THREADS).any (fun i => e.pthread_create_ret i ≠ 0) then .process_exit 1
  else if e.sigprocmask_restore = -1 then .process_exit 1
  else
    match accept_loop e.accepts with
    | .unfinished => .unfinished
    | .returned status => .process_exit status
    | .left_loop =>
      if e.queue_shutdown_ret = -1 then .process_exit 1
      else
        let exit_code := join_threads e.pthread_join_ret
        if e.queue_free_ret = -1 then .process_exit 1
        else if e.close_ret = -1 then .process_exit 1
        else .process_exit exit_code

/-- Every call made by `main` succeeds and the accept loop is left (by the
interrupt, or by a failed enqueue). -/
def main_env.all_succeed (e : main_env) : Prop :=
  e.argc = 3 ∧ e.sigfillset_handler ≠ -1 ∧ e.sigaction_ret ≠ -1 ∧ e.getaddrinfo_ret = 0 ∧
  e.socket_ret ≠ -1 ∧ e.bind_ret ≠ -1 ∧ e.listen_ret ≠ -1 ∧ e.sigfillset_new ≠ -1 ∧
  e.sigprocmask_block ≠ -1 ∧ e.queue_init_ret ≠ -1 ∧
  (∀ i, i < N_THREADS → e.pthread_create_ret i = 0) ∧ e.sigprocmask_restore ≠ -1 ∧
  accept_loop e.accepts = .left_loop ∧ e.queue_shutdown_ret ≠ -1 ∧
  (∀ i, i < N_THREADS → e.pthread_join_ret i = 0) ∧ e.queue_free_ret ≠ -1 ∧ e.close_ret ≠ -1

/-- The shutdown flag is set and no thread of the system is blocked: each one
has been woken or has returned -1. -/
def System.stopping (s : System) : Prop :=
  s.queue.shutdown ≠ 0 ∧ ∀ t ∈ s.threads, t.is_woken = true ∨ t = .finished (-1)

/-! # Properties -/

theorem length_inv_init (CAPACITY : Nat) (r : init_rets) :
    length_inv CAPACITY (connection_queue_init CAPACITY r).1 := by
  unfold connection_queue_init length_inv
  split_ifs <;> simp

theorem length_inv_run (CAPACITY : Nat) (p : pthread_rets) (q : connection_queue_t) (c : Call)
    (h : length_inv CAPACITY q) : length_inv CAPACITY (c.run CAPACITY p q).queue := by
  obtain ⟨h0, h1⟩ := h
  cases c <;>
    simp only [Call.run, connection_enqueue, connection_enqueue_wake, connection_dequeue,
      connection_dequeue_wake, connection_queue_shutdown, enqueue_from_loop, dequeue_from_loop,
      length_inv] <;>
    split_ifs <;> simp only [] <;> omega

theorem length_inv_run_calls (CAPACITY : Nat) (cs : List (Call × pthread_rets))
    (q : connection_queue_t) (h : length_inv CAPACITY q) :
    length_inv CAPACITY (run_calls CAPACITY q cs) := by
  induction cs generalizing q with
  | nil => exact h
  | cons c cs ih => exact ih _ (length_inv_run CAPACITY c.2 q c.1 h)

theorem tmod_succ_eq (C w : Int) (h0 : 0 ≤ w) (hC : 0 < C) :
    Int.tmod (w + 1) C = (w + 1) % C :=
  Int.tmod_eq_emod (by omega) (by omega)

theorem index_inv_init (CAPACITY : Nat) (hC : 0 < CAPACITY) (r : init_rets) :
    index_inv CAPACITY (connection_queue_init CAPACITY r).1 := by
  have hC' : (0 : Int) < (CAPACITY : Int) := by exact_mod_cast hC
  unfold connection_queue_init index_inv length_inv
  split_ifs <;> simp [hC]

theorem index_inv_enqueue_from_loop (CAPACITY : Nat) (hC : 0 < CAPACITY) (p : pthread_rets)
    (q : connection_queue_t) (fd : Int) (h : index_inv CAPACITY q) :
    index_inv CAPACITY (enqueue_from_loop CAPACITY p q fd).queue := by
  have hC' : (0 : Int) < (CAPACITY : Int) := by exact_mod_cast hC
  obtain ⟨⟨hl0, hl1⟩, ⟨hr0, hr1⟩, ⟨hw0, hw1⟩, hw, hlen⟩ := h
  have key : index_inv CAPACITY
      { client_fds := q.client_fds.set q.write_idx.toNat fd
        length := q.length + 1
        read_idx := q.read_idx
        write_idx := Int.tmod (q.write_idx + 1) (CAPACITY : Int)
        shutdown := q.shutdown } ∨ q.length = (CAPACITY : Int) := by
    by_cases hfull : q.length = (CAPACITY : Int)
    · exact Or.inr hfull
    · left
      rw [tmod_succ_eq _ _ hw0 hC']
      refine ⟨⟨by simp only []; omega, by simp only []; omega⟩, ⟨hr0, hr1⟩,
        ⟨Int.emod_nonneg _ (by omega), Int.emod_lt_of_pos _ hC'⟩, ?_, by simpa using hlen⟩
      simp only []
      rw [hw, Int.emod_add_emod, Int.add_assoc]
  unfold enqueue_from_loop
  split_ifs with hfull
  · exact ⟨⟨hl0, hl1⟩, ⟨hr0, hr1⟩, ⟨hw0, hw1⟩, hw, hlen⟩
  · exact key.resolve_right hfull
  · exact key.resolve_right hfull
  · exact key.resolve_right hfull

theorem index_inv_dequeue_from_loop (CAPACITY : Nat) (hC : 0 < CAPACITY) (p : pthread_rets)
    (q : connection_queue_t) (h : index_inv CAPACITY q) :
    index_inv CAPACITY (dequeue_from_loop CAPACITY p q).queue := by
  have hC' : (0 : Int) < (CAPACITY : Int) := by exact_mod_cast hC
  obtain ⟨⟨hl0, hl1⟩, ⟨hr0, hr1⟩, ⟨hw0, hw1⟩, hw, hlen⟩ := h
  have key : index_inv CAPACITY
      { client_fds := q.client_fds
        length := q.length - 1
        read_idx := Int.tmod (q.read_idx + 1) (CAPACITY : Int)
        write_idx := q.write_idx
        shutdown := q.shutdown } ∨ q.length = 0 := by
    by_cases hempty : q.length = 0
    · exact Or.inr hempty
    · left
      rw [tmod_succ_eq _ _ hr0 hC']
      refine ⟨⟨by simp only []; omega, by simp only []; omega⟩,
        ⟨Int.emod_nonneg _ (by omega), Int.emod_lt_of_pos _ hC'⟩, ⟨hw0, hw1⟩, ?_, hlen⟩
      simp only []
      rw [hw, Int.emod_add_emod]
      congr 1
      omega
  unfold dequeue_from_loop
  split_ifs with hempty
  · exact ⟨⟨hl0, hl1⟩, ⟨hr0, hr1⟩, ⟨hw0, hw1⟩, hw, hlen⟩
  · exact key.resolve_right hempty
  · exact key.resolve_right hempty
  · exact key.resolve_right hempty

theorem index_inv_run (CAPACITY : Nat) (hC : 0 < CAPACITY) (p : pthread_rets)
    (q : connection_queue_t) (c : Call) (h : index_inv CAPACITY q) :
    index_inv CAPACITY (c.run CAPACITY p q).queue := by
  cases c with
  | enqueue fd =>
    simp only [Call.run, connection_enqueue]
    split_ifs
    · exact h
    · exact index_inv_enqueue_from_loop CAPACITY hC p q fd h
  | enqueue_wake fd =>
    simp only [Call.run, connection_enqueue_wake]
    split_ifs
    all_goals first | exact h | exact index_inv_enqueue_from_loop CAPACITY hC p q fd h
  | dequeue =>
    simp only [Call.run, connection_dequeue]
    split_ifs
    · exact h
    · exact index_inv_dequeue_from_loop CAPACITY hC p q h
  | dequeue_wake =>
    simp only [Call.run, connection_dequeue_wake]
    split_ifs
    all_goals first | exact h | exact index_inv_dequeue_from_loop CAPACITY hC p q h
  | shutdown =>
    simp only [Call.run, connection_queue_shutdown]
    split_ifs
    all_goals exact h

theorem index_inv_run_calls (CAPACITY : Nat) (hC : 0 < CAPACITY)
    (cs : List (Call × pthread_rets)) (q : connection_queue_t) (h : index_inv CAPACITY q) :
    index_inv CAPACITY (run_calls CAPACITY q cs) := by
  induction cs generalizing q with
  | nil => exact h
  | cons c cs ih => exact ih _ (index_inv_run CAPACITY hC c.2 q c.1 h)

/-! ## FIFO order -/

theorem contents_init (CAPACITY : Nat) (r : init_rets) :
    contents CAPACITY (connection_queue_init CAPACITY r).1 = [] := by
  unfold connection_queue_init contents
  split_ifs <;> simp

theorem mod_add_ne (C r i l : Nat) (hi : i < l) (hl : l < C) :
    (r + i) % C ≠ (r + l) % C := by
  intro h
  have h1 : i % C = l % C := Nat.ModEq.add_left_cancel' r h
  rw [Nat.mod_eq_of_lt (by omega), Nat.mod_eq_of_lt hl] at h1
  omega

theorem contents_enqueue (CAPACITY : Nat) (hC : 0 < CAPACITY) (q : connection_queue_t)
    (fd : Int) (h : index_inv CAPACITY q) (hroom : q.length < (CAPACITY : Int)) :
    connection_enqueue CAPACITY pthread_ok q fd =
        ⟨(connection_enqueue CAPACITY pthread_ok q fd).queue, .returned 0, [.signal_empty]⟩ ∧
      contents CAPACITY (connection_enqueue CAPACITY pthread_ok q fd).queue =
        contents CAPACITY q ++ [fd] := by
  obtain ⟨⟨hl0, hl1⟩, ⟨hr0, hr1⟩, ⟨hw0, hw1⟩, hw, hlen⟩ := h
  obtain ⟨l, hl⟩ := Int.eq_ofNat_of_zero_le hl0
  obtain ⟨r, hr⟩ := Int.eq_ofNat_of_zero_le hr0
  obtain ⟨w, hw'⟩ := Int.eq_ofNat_of_zero_le hw0
  have hne : q.length ≠ (CAPACITY : Int) := by omega
  have hlC : l < CAPACITY := by omega
  have hwN : w = (r + l) % CAPACITY := by
    rw [hl, hr, hw'] at hw
    exact_mod_cast hw
  have hwlt : w < q.client_fds.length := by
    rw [hlen, hwN]; exact Nat.mod_lt _ hC
  simp only [connection_enqueue, enqueue_from_loop, pthread_ok, hne, if_false, ne_eq,
    not_true_eq_false, true_and, contents]
  rw [hl, hr, hw']
  have e1 : ((l : Int) + 1).toNat = l + 1 := by omega
  simp only [Int.toNat_ofNat, e1, List.range_succ, List.map_append, List.map_cons, List.map_nil]
  congr 1
  · apply List.map_congr_left
    intro i hi
    rw [List.mem_range] at hi
    have hne2 : w ≠ (r + i) % CAPACITY := by
      rw [hwN]; exact (mod_add_ne CAPACITY r i l hi hlC).symm
    simp [List.getD_eq_getElem?_getD, List.getElem?_set_ne hne2]
  · rw [← hwN]
    simp [List.getD_eq_getElem?_getD, hwlt]

theorem contents_dequeue (CAPACITY : Nat) (hC : 0 < CAPACITY) (q : connection_queue_t)
    (h : index_inv CAPACITY q) (hsome : 0 < q.length) :
    ∃ v, connection_dequeue CAPACITY pthread_ok q =
        ⟨(connection_dequeue CAPACITY pthread_ok q).queue, .returned v, [.signal_full]⟩ ∧
      contents CAPACITY q =
        v :: contents CAPACITY (connection_dequeue CAPACITY pthread_ok q).queue := by
  have hC' : (0 : Int) < (CAPACITY : Int) := by exact_mod_cast hC
  obtain ⟨⟨hl0, hl1⟩, ⟨hr0, hr1⟩, ⟨hw0, hw1⟩, hw, hlen⟩ := h
  obtain ⟨l, hl⟩ := Int.eq_ofNat_of_zero_le hl0
  obtain ⟨r, hr⟩ := Int.eq_ofNat_of_zero_le hr0
  have hne : q.length ≠ 0 := by omega
  have hrC : r < CAPACITY := by omega
  obtain ⟨m, rfl⟩ : ∃ m, l = m + 1 := ⟨l - 1, by omega⟩
  refine ⟨q.client_fds.getD q.read_idx.toNat 0, ?_, ?_⟩
  · simp [connection_dequeue, dequeue_from_loop, pthread_ok, hne]
  · simp only [connection_dequeue, dequeue_from_loop, pthread_ok, hne, if_false, ne_eq,
      not_true_eq_false, contents]
    rw [tmod_succ_eq _ _ hr0 hC', hl, hr]
    have e1 : ((r : Int) + 1) % (CAPACITY : Int) = (((r + 1) % CAPACITY : Nat) : Int) := by
      push_cast; rfl
    have e2 : (((m + 1 : Nat) : Int) - 1).toNat = m := by omega
    rw [e1, e2]
    simp only [Int.toNat_ofNat, List.range_succ_eq_map, List.map_cons, List.map_map,
      Nat.add_zero, Nat.mod_eq_of_lt hrC]
    congr 1
    apply List.map_congr_left
    intro i _
    simp only [Function.comp, Nat.succ_eq_add_one]
    rw [Nat.mod_add_mod, Nat.add_assoc, Nat.add_comm 1 i]

theorem fifo_general (CAPACITY : Nat) (hC : 0 < CAPACITY) (cs : List Call)
    (q : connection_queue_t) (h : index_inv CAPACITY q) (hnw : never_waits CAPACITY q cs) :
    ∃ rest, contents CAPACITY q ++ handles_in CAPACITY q cs =
        handles_out CAPACITY q cs ++ rest ∧
      (handles_out CAPACITY q cs).length = dequeue_calls cs ∧
      (handles_in CAPACITY q cs).length = enqueue_calls cs := by
  induction cs generalizing q with
  | nil => exact ⟨contents CAPACITY q, by simp [handles_in, handles_out], rfl, rfl⟩
  | cons c cs ih =>
    cases c with
    | enqueue fd =>
      obtain ⟨hroom, hrest⟩ := hnw
      have hinv : index_inv CAPACITY (connection_enqueue CAPACITY pthread_ok q fd).queue :=
        index_inv_run CAPACITY hC pthread_ok q (.enqueue fd) h
      obtain ⟨rest, e, n, m⟩ := ih _ hinv hrest
      obtain ⟨hret, hc⟩ := contents_enqueue CAPACITY hC q fd h hroom
      have hout : (connection_enqueue CAPACITY pthread_ok q fd).out = .returned 0 := by
        rw [hret]
      refine ⟨rest, ?_, ?_, ?_⟩
      · rw [hc] at e
        simpa [handles_in, handles_out, Call.run, hout] using e
      · simpa [handles_out, dequeue_calls, Call.run] using n
      · simp only [handles_in, hout, if_true, List.length_cons, m, enqueue_calls]
    | dequeue =>
      obtain ⟨hsome, hrest⟩ := hnw
      have hinv : index_inv CAPACITY (connection_dequeue CAPACITY pthread_ok q).queue :=
        index_inv_run CAPACITY hC pthread_ok q .dequeue h
      obtain ⟨rest, e, n, m⟩ := ih _ hinv hrest
      obtain ⟨v, hv, hc⟩ := contents_dequeue CAPACITY hC q h hsome
      have hout : (connection_dequeue CAPACITY pthread_ok q).out = .returned v := by
        rw [hv]
      refine ⟨rest, ?_, ?_, ?_⟩
      · simp only [handles_in, handles_out, hout, Call.run]
        rw [hc, List.cons_append, List.cons_append, e]
      · simp only [handles_out, hout, dequeue_calls, List.length_cons, n]
      · simpa [handles_in, enqueue_calls, Call.run] using m
    | enqueue_wake fd => exact hnw.elim
    | dequeue_wake => exact hnw.elim
    | shutdown => exact hnw.elim

/-! ## The claims on the queue -/

/-- C1: for every CAPACITY > 0 and every sequence of new enqueue and dequeue
calls on a queue fresh from connection_queue_init in which no call waits, every
enqueue call returns 0, every dequeue call returns a value, and the value
returned by the k-th dequeue is the handle passed to the k-th enqueue, for
every k. -/
theorem C1_fifo_order (CAPACITY : Nat) (hC : 0 < CAPACITY) (r : init_rets) (cs : List Call)
    (hnw : never_waits CAPACITY (connection_queue_init CAPACITY r).1 cs) :
    (handles_in CAPACITY (connection_queue_init CAPACITY r).1 cs).length = enqueue_calls cs ∧
    (handles_out CAPACITY (connection_queue_init CAPACITY r).1 cs).length = dequeue_calls cs ∧
      ∀ k, k < dequeue_calls cs →
        ∃ fd, (handles_out CAPACITY (connection_queue_init CAPACITY r).1 cs)[k]? = some fd ∧
          (handles_in CAPACITY (connection_queue_init CAPACITY r).1 cs)[k]? = some fd := by
  obtain ⟨rest, e, n, m⟩ :=
    fifo_general CAPACITY hC cs _ (index_inv_init CAPACITY hC r) hnw
  rw [contents_init, List.nil_append] at e
  refine ⟨m, n, fun k hk => ?_⟩
  rw [← n] at hk
  refine ⟨(handles_out CAPACITY (connection_queue_init CAPACITY r).1 cs)[k], ?_, ?_⟩
  · exact List.getElem?_eq_getElem hk
  · rw [e, List.getElem?_append_left hk]
    exact List.getElem?_eq_getElem hk

/-- C2: in every queue state reached from connection_queue_init by any sequence
of enqueue, dequeue and shutdown sections (new calls and resumed ones, whatever
the pthread calls return), 0 <= length <= CAPACITY. -/
theorem C2_capacity_invariant (CAPACITY : Nat) (r : init_rets)
    (cs : List (Call × pthread_rets)) :
    0 ≤ (run_calls CAPACITY (connection_queue_init CAPACITY r).1 cs).length ∧
      (run_calls CAPACITY (connection_queue_init CAPACITY r).1 cs).length ≤ (CAPACITY : Int) :=
  length_inv_run_calls CAPACITY cs _ (length_inv_init CAPACITY r)

/-- C3: for CAPACITY > 0, in every queue state reached from
connection_queue_init by any sequence of enqueue, dequeue and shutdown sections,
write_idx = (read_idx + length) mod CAPACITY and both indices are in
0 .. CAPACITY-1. -/
theorem C3_index_invariant (CAPACITY : Nat) (hC : 0 < CAPACITY) (r : init_rets)
    (cs : List (Call × pthread_rets)) :
    (run_calls CAPACITY (connection_queue_init CAPACITY r).1 cs).write_idx =
        ((run_calls CAPACITY (connection_queue_init CAPACITY r).1 cs).read_idx +
          (run_calls CAPACITY (connection_queue_init CAPACITY r).1 cs).length) % (CAPACITY : Int) ∧
      (0 ≤ (run_calls CAPACITY (connection_queue_init CAPACITY r).1 cs).read_idx ∧
        (run_calls CAPACITY (connection_queue_init CAPACITY r).1 cs).read_idx < (CAPACITY : Int)) ∧
      (0 ≤ (run_calls CAPACITY (connection_queue_init CAPACITY r).1 cs).write_idx ∧
        (run_calls CAPACITY (connection_queue_init CAPACITY r).1 cs).write_idx < (CAPACITY : Int)) := by
  have h := index_inv_run_calls CAPACITY hC cs _ (index_inv_init CAPACITY hC r)
  exact ⟨h.2.2.2.1, h.2.1, h.2.2.1⟩

/-- Witness of C1 with CAPACITY = 2: four handles go through the two slots, so
both indices wrap around. -/
theorem C1_fifo_order_witness :
    never_waits 2 (connection_queue_init 2 init_ok).1
        [.enqueue 10, .enqueue 20, .dequeue, .enqueue 30, .dequeue, .dequeue, .enqueue 40,
          .dequeue] ∧
      ∀ k, k < dequeue_calls
          [.enqueue 10, .enqueue 20, .dequeue, .enqueue 30, .dequeue, .dequeue, .enqueue 40,
            .dequeue] →
        ∃ fd, (handles_out 2 (connection_queue_init 2 init_ok).1
            [.enqueue 10, .enqueue 20, .dequeue, .enqueue 30, .dequeue, .dequeue, .enqueue 40,
              .dequeue])[k]? = some fd ∧
          (handles_in 2 (connection_queue_init 2 init_ok).1
            [.enqueue 10, .enqueue 20, .dequeue, .enqueue 30, .dequeue, .dequeue, .enqueue 40,
              .dequeue])[k]? = some fd :=
  ⟨by decide, (C1_fifo_order 2 (by decide) init_ok _ (by decide)).2.2⟩

/-- Witness of C3 with CAPACITY = 2 after three enqueues (the third one waits),
a dequeue, the resumed enqueue and a shutdown. -/
theorem C3_index_invariant_witness :
    (0 < 2) ∧
      (run_calls 2 (connection_queue_init 2 init_ok).1
          [(.enqueue 10, pthread_ok), (.enqueue 20, pthread_ok), (.enqueue 30, pthread_ok),
            (.dequeue, pthread_ok), (.enqueue_wake 30, pthread_ok),
            (.shutdown, pthread_ok)]).write_idx =
        ((run_calls 2 (connection_queue_init 2 init_ok).1
            [(.enqueue 10, pthread_ok), (.enqueue 20, pthread_ok), (.enqueue 30, pthread_ok),
              (.dequeue, pthread_ok), (.enqueue_wake 30, pthread_ok),
              (.shutdown, pthread_ok)]).read_idx +
          (run_calls 2 (connection_queue_init 2 init_ok).1
            [(.enqueue 10, pthread_ok), (.enqueue 20, pthread_ok), (.enqueue 30, pthread_ok),
              (.dequeue, pthread_ok), (.enqueue_wake 30, pthread_ok),
              (.shutdown, pthread_ok)]).length) % ((2 : Nat) : Int) :=
  ⟨by decide, (C3_index_invariant 2 (by decide) init_ok _).1⟩

/-! ## Shutdown and the two wait loops -/

theorem enqueue_wake_after_shutdown (CAPACITY : Nat) (p : pthread_rets)
    (q : connection_queue_t) (fd : Int) (hs : q.shutdown ≠ 0) :
    connection_enqueue_wake CAPACITY p q fd = ⟨q, .returned (-1), []⟩ := by
  unfold connection_enqueue_wake
  split_ifs <;> rfl

theorem dequeue_wake_after_shutdown (CAPACITY : Nat) (p : pthread_rets)
    (q : connection_queue_t) (hs : q.shutdown ≠ 0) :
    connection_dequeue_wake CAPACITY p q = ⟨q, .returned (-1), []⟩ := by
  unfold connection_dequeue_wake
  split_ifs <;> rfl

theorem shutdown_flag_kept (CAPACITY : Nat) (p : pthread_rets) (q : connection_queue_t)
    (c : Call) (hs : q.shutdown ≠ 0) : (c.run CAPACITY p q).queue.shutdown ≠ 0 := by
  cases c <;>
    simp only [Call.run, connection_enqueue, connection_enqueue_wake, connection_dequeue,
      connection_dequeue_wake, connection_queue_shutdown, enqueue_from_loop,
      dequeue_from_loop] <;>
    split_ifs <;> simp [hs]

/-- C4, counterexample: with CAPACITY = 2, on the empty queue on which
connection_queue_shutdown has run, a new connection_enqueue of handle 7 stores
it and returns 0; on the full queue on which shutdown has run, a new
connection_enqueue enters the wait. -/
theorem C4_counterexample :
    connection_enqueue 2 pthread_ok
        (connection_queue_shutdown pthread_ok (connection_queue_init 2 init_ok).1).queue 7 =
      ⟨{ client_fds := [7, -1], length := 1, read_idx := 0, write_idx := 1, shutdown := 1 },
        .returned 0, [.signal_empty]⟩ ∧
    (connection_enqueue 2 pthread_ok
        (run_calls 2 (connection_queue_init 2 init_ok).1
          [(.enqueue 10, pthread_ok), (.enqueue 20, pthread_ok), (.shutdown, pthread_ok)]) 7).out =
      .blocked := by
  decide

/-- C4, amended: in a queue state with the shutdown flag set, a
connection_enqueue that resumes from its wait returns -1 and leaves client_fds,
write_idx, read_idx and length unchanged, whatever the pthread calls return; a
new call on a full queue enters the wait and changes nothing, and a new call on
a queue that is not full stores the handle and returns 0. -/
theorem C4_enqueue_after_shutdown (CAPACITY : Nat) (q : connection_queue_t) (fd : Int)
    (hs : q.shutdown ≠ 0) :
    (∀ p, connection_enqueue_wake CAPACITY p q fd = ⟨q, .returned (-1), []⟩) ∧
    (q.length = (CAPACITY : Int) →
      connection_enqueue CAPACITY pthread_ok q fd = ⟨q, .blocked, []⟩) ∧
    (q.length ≠ (CAPACITY : Int) →
      connection_enqueue CAPACITY pthread_ok q fd =
        ⟨{ client_fds := q.client_fds.set q.write_idx.toNat fd
           length := q.length + 1
           read_idx := q.read_idx
           write_idx := Int.tmod (q.write_idx + 1) (CAPACITY : Int)
           shutdown := q.shutdown }, .returned 0, [.signal_empty]⟩) := by
  refine ⟨fun p => enqueue_wake_after_shutdown CAPACITY p q fd hs, fun hfull => ?_,
    fun hroom => ?_⟩
  · simp [connection_enqueue, enqueue_from_loop, pthread_ok, hfull]
  · simp [connection_enqueue, enqueue_from_loop, pthread_ok, hroom]

/-- Witness of C4 (amended) on the full queue of capacity 2 after shutdown. -/
theorem C4_enqueue_after_shutdown_witness :
    (1 : Int) ≠ 0 ∧
      ∀ p, connection_enqueue_wake 2 p
          { client_fds := [10, 20], length := 2, read_idx := 0, write_idx := 0, shutdown := 1 } 7 =
        ⟨{ client_fds := [10, 20], length := 2, read_idx := 0, write_idx := 0, shutdown := 1 },
          .returned (-1), []⟩ :=
  ⟨by decide, (C4_enqueue_after_shutdown 2
    { client_fds := [10, 20], length := 2, read_idx := 0, write_idx := 0, shutdown := 1 } 7
    (by decide)).1⟩

/-- C5, counterexample: with CAPACITY = 2, after enqueue of handle 7 and
shutdown the queue holds one handle; a dequeuer that resumes from its wait in
that state returns -1 and the handle stays in the queue. -/
theorem C5_counterexample :
    (run_calls 2 (connection_queue_init 2 init_ok).1
        [(.enqueue 7, pthread_ok), (.shutdown, pthread_ok)]).length = 1 ∧
    (run_calls 2 (connection_queue_init 2 init_ok).1
        [(.enqueue 7, pthread_ok), (.shutdown, pthread_ok)]).shutdown = 1 ∧
    connection_dequeue_wake 2 pthread_ok
        (run_calls 2 (connection_queue_init 2 init_ok).1
          [(.enqueue 7, pthread_ok), (.shutdown, pthread_ok)]) =
      ⟨{ client_fds := [7, -1], length := 1, read_idx := 0, write_idx := 1, shutdown := 1 },
        .returned (-1), []⟩ := by
  decide

/-- C5, amended: in a queue state with length > 0, a new connection_dequeue
returns client_fds[read_idx] and removes it, also when the shutdown flag is set;
a dequeuer that resumes from its wait returns -1 and removes nothing whenever
the flag is set, and does the ordinary dequeue when the flag is not set. -/
theorem C5_drain_on_new_call (CAPACITY : Nat) (q : connection_queue_t) (hl : 0 < q.length) :
    connection_dequeue CAPACITY pthread_ok q =
      ⟨{ client_fds := q.client_fds
         length := q.length - 1
         read_idx := Int.tmod (q.read_idx + 1) (CAPACITY : Int)
         write_idx := q.write_idx
         shutdown := q.shutdown },
        .returned (q.client_fds.getD q.read_idx.toNat 0), [.signal_full]⟩ ∧
    (q.shutdown ≠ 0 → ∀ p, connection_dequeue_wake CAPACITY p q = ⟨q, .returned (-1), []⟩) ∧
    (q.shutdown = 0 →
      connection_dequeue_wake CAPACITY pthread_ok q = connection_dequeue CAPACITY pthread_ok q) := by
  have hne : q.length ≠ 0 := by omega
  refine ⟨?_, fun hs p => dequeue_wake_after_shutdown CAPACITY p q hs, fun hs => ?_⟩
  · simp [connection_dequeue, dequeue_from_loop, pthread_ok, hne]
  · simp [connection_dequeue_wake, connection_dequeue, pthread_ok, hs]

/-- Witness of C5 (amended) on a queue of capacity 2 holding handle 7 after
shutdown. -/
theorem C5_drain_on_new_call_witness :
    (0 : Int) < 1 ∧
      connection_dequeue 2 pthread_ok
          { client_fds := [7, -1], length := 1, read_idx := 0, write_idx := 1, shutdown := 1 } =
        ⟨{ client_fds := [7, -1], length := 0, read_idx := 1, write_idx := 1, shutdown := 1 },
          .returned 7, [.signal_full]⟩ :=
  ⟨by decide, (C5_drain_on_new_call 2
    { client_fds := [7, -1], length := 1, read_idx := 0, write_idx := 1, shutdown := 1 }
    (by decide)).1⟩

/-- C6, counterexample: with CAPACITY = 2, on the empty queue on which
connection_queue_shutdown has run, a new connection_dequeue enters the wait
instead of returning -1. -/
theorem C6_counterexample :
    connection_dequeue 2 pthread_ok
        (connection_queue_shutdown pthread_ok (connection_queue_init 2 init_ok).1).queue =
      ⟨{ client_fds := [-1, -1], length := 0, read_idx := 0, write_idx := 0, shutdown := 1 },
        .blocked, []⟩ := by
  decide

/-- C6, amended: in a queue state with the shutdown flag set and length == 0, a
new connection_dequeue enters the wait and changes nothing; when it resumes
from that wait it returns -1 and removes nothing. -/
theorem C6_dequeue_empty_after_shutdown (CAPACITY : Nat) (q : connection_queue_t)
    (hs : q.shutdown ≠ 0) (hl : q.length = 0) :
    connection_dequeue CAPACITY pthread_ok q = ⟨q, .blocked, []⟩ ∧
      ∀ p, connection_dequeue_wake CAPACITY p q = ⟨q, .returned (-1), []⟩ := by
  refine ⟨?_, fun p => dequeue_wake_after_shutdown CAPACITY p q hs⟩
  simp [connection_dequeue, dequeue_from_loop, pthread_ok, hl]

/-- Witness of C6 (amended) on the drained queue of capacity 2 after shutdown. -/
theorem C6_dequeue_empty_after_shutdown_witness :
    ((1 : Int) ≠ 0 ∧ (0 : Int) = 0) ∧
      (connection_dequeue 2 pthread_ok
          { client_fds := [30, 20], length := 0, read_idx := 1, write_idx := 1, shutdown := 1 } =
        ⟨{ client_fds := [30, 20], length := 0, read_idx := 1, write_idx := 1, shutdown := 1 },
          .blocked, []⟩ ∧
      ∀ p, connection_dequeue_wake 2 p
          { client_fds := [30, 20], length := 0, read_idx := 1, write_idx := 1, shutdown := 1 } =
        ⟨{ client_fds := [30, 20], length := 0, read_idx := 1, write_idx := 1, shutdown := 1 },
          .returned (-1), []⟩) :=
  ⟨⟨by decide, rfl⟩, C6_dequeue_empty_after_shutdown 2
    { client_fds := [30, 20], length := 0, read_idx := 1, write_idx := 1, shutdown := 1 }
    (by decide) rfl⟩

/-- C9: when its lock call succeeds, connection_queue_shutdown sets the shutdown
flag to 1 and leaves client_fds, read_idx, write_idx and length unchanged; a
second shutdown yields the same state as the first; no enqueue, dequeue or
shutdown section resets a set flag, and connection_queue_free leaves the data
untouched. -/
theorem C9_shutdown_idempotent (p1 p2 : pthread_rets) (q : connection_queue_t)
    (h1 : p1.lock = 0) (h2 : p2.lock = 0) :
    (connection_queue_shutdown p1 q).queue =
        { client_fds := q.client_fds, length := q.length, read_idx := q.read_idx,
          write_idx := q.write_idx, shutdown := 1 } ∧
    (connection_queue_shutdown p2 (connection_queue_shutdown p1 q).queue).queue =
        (connection_queue_shutdown p1 q).queue ∧
    (∀ (CAPACITY : Nat) (p : pthread_rets) (q0 : connection_queue_t) (c : Call),
        q0.shutdown ≠ 0 → (c.run CAPACITY p q0).queue.shutdown ≠ 0) ∧
    (∀ (r : free_rets) (q0 : connection_queue_t), (connection_queue_free r q0).1 = q0) := by
  have e : ∀ (p : pthread_rets) (q0 : connection_queue_t), p.lock = 0 →
      (connection_queue_shutdown p q0).queue = { q0 with shutdown := 1 } := by
    intro p q0 h
    unfold connection_queue_shutdown
    simp only [h, ne_eq, not_true_eq_false, if_false]
    split_ifs <;> rfl
  refine ⟨e p1 q h1, ?_, fun C p q0 c hs => shutdown_flag_kept C p q0 c hs, fun r q0 => ?_⟩
  · rw [e p2 _ h2, e p1 q h1]
  · unfold connection_queue_free
    split_ifs <;> rfl

/-- Witness of C9 on the queue of capacity 2 that holds handles 10 and 20. -/
theorem C9_shutdown_idempotent_witness :
    (pthread_ok.lock = 0 ∧ pthread_ok.lock = 0) ∧
      (connection_queue_shutdown pthread_ok
          (connection_queue_shutdown pthread_ok
            { client_fds := [10, 20], length := 2, read_idx := 0, write_idx := 0,
              shutdown := 0 }).queue).queue =
        (connection_queue_shutdown pthread_ok
          { client_fds := [10, 20], length := 2, read_idx := 0, write_idx := 0,
            shutdown := 0 }).queue :=
  ⟨⟨rfl, rfl⟩, (C9_shutdown_idempotent pthread_ok pthread_ok
    { client_fds := [10, 20], length := 2, read_idx := 0, write_idx := 0, shutdown := 0 }
    rfl rfl).2.1⟩

/-! ## The worker loop and main -/

/-- C7, counterexample: a worker dequeues handle 4, read_http_request fails; the
worker closes handle 4 and calls exit(1); the second listed iteration, which
would dequeue handle 5, never runs. -/
theorem C7_counterexample :
    consumer_thread_func [⟨1, 4, 1, 0, 0⟩, ⟨1, 5, 0, 0, 0⟩] =
      ([.connection_dequeue, .read_http_request 4,
        .fprintf_stderr "Error reading http request\n", .close 4], .process_exit 1) := by
  decide

/-- C7, amended: for every dequeued handle for which read_http_request or
write_http_response returns 1, the iteration of consumer_thread_func prints the
error to stderr, closes that handle and then calls exit(1), which ends the
process; no further connection_dequeue is made. -/
theorem C7_handler_failure_exits (e : worker_env) (rest : List worker_env)
    (hk : e.keep_going ≠ 0) (hd : e.dequeue_ret ≠ -1) :
    (e.read_ret = 1 →
      consumer_thread_func (e :: rest) =
        ([.connection_dequeue, .read_http_request e.dequeue_ret,
          .fprintf_stderr "Error reading http request\n", .close e.dequeue_ret],
          .process_exit 1)) ∧
    (e.read_ret ≠ 1 → e.write_ret = 1 →
      consumer_thread_func (e :: rest) =
        ([.connection_dequeue, .read_http_request e.dequeue_ret,
          .write_http_response e.dequeue_ret,
          .fprintf_stderr "Error writing http request\n", .close e.dequeue_ret],
          .process_exit 1)) := by
  constructor
  · intro hr
    simp [consumer_thread_func, hk, hd, hr]
  · intro hr hw
    simp [consumer_thread_func, hk, hd, hr, hw]

/-- Witness of C7 (amended): handle 4, write_http_response fails. -/
theorem C7_handler_failure_exits_witness :
    ((1 : Int) ≠ 0 ∧ (4 : Int) ≠ -1) ∧
      ((0 : Int) ≠ 1 → (1 : Int) = 1 →
        consumer_thread_func [⟨1, 4, 0, 1, 0⟩, ⟨1, 5, 0, 0, 0⟩] =
          ([.connection_dequeue, .read_http_request 4, .write_http_response 4,
            .fprintf_stderr "Error writing http request\n", .close 4], .process_exit 1)) :=
  ⟨⟨by decide, by decide⟩,
    (C7_handler_failure_exits ⟨1, 4, 0, 1, 0⟩ [⟨1, 5, 0, 0, 0⟩] (by decide) (by decide)).2⟩

/-- C8, counterexample: when connection_dequeue reports -1 the worker does not
return from its start function; it calls exit(1), which ends the process with
status 1. -/
theorem C8_counterexample :
    consumer_thread_func [⟨1, -1, 0, 0, 0⟩] = ([.connection_dequeue], .process_exit 1) ∧
      (consumer_thread_func [⟨1, -1, 0, 0, 0⟩]).2 ≠ .thread_return := by
  decide

/-- C8, amended: when connection_dequeue reports -1, consumer_thread_func
processes no connection and prints nothing, and calls exit(1), which ends the
process with status 1; the function main itself returns 0 when every call it
makes succeeds and its accept loop is left. -/
theorem C8_shutdown_exit_paths (e : worker_env) (rest : List worker_env)
    (hk : e.keep_going ≠ 0) (hd : e.dequeue_ret = -1) (env : main_env)
    (hm : env.all_succeed) :
    consumer_thread_func (e :: rest) = ([.connection_dequeue], .process_exit 1) ∧
      main env = .process_exit 0 := by
  constructor
  · simp [consumer_thread_func, hk, hd]
  · obtain ⟨h1, h2, h3, h4, h5, h6, h7, h8, h9, h10, h11, h12, h13, h14, h15, h16, h17⟩ := hm
    have hc : (List.range N_THREADS).any (fun i => decide (env.pthread_create_ret i ≠ 0)) = false := by
      rw [List.any_eq_false]
      intro i hi
      simp [h11 i (List.mem_range.mp hi)]
    have hj : join_threads env.pthread_join_ret = 0 := by
      simp [join_threads, N_THREADS, List.range_succ, h15 0 (by decide), h15 1 (by decide),
        h15 2 (by decide), h15 3 (by decide), h15 4 (by decide)]
    simp only [main, h1, h2, h3, h4, h5, h6, h7, h8, h9, h10, hc, h12, h13, h14, hj, h16, h17,
      ne_eq, not_true_eq_false, not_false_eq_true, if_false, if_true, Bool.false_eq_true]

/-- Witness of C8 (amended): one connection is accepted and enqueued, then the
interrupt makes accept fail with EINTR. -/
theorem C8_shutdown_exit_paths_witness :
    ((1 : Int) ≠ 0 ∧ (-1 : Int) = -1) ∧
      main ⟨3, 0, 0, 0, 3, 0, 0, 0, 0, 0, fun _ => 0, 0,
        [⟨1, 4, false, 0⟩, ⟨1, -1, true, 0⟩], 0, fun _ => 0, 0, 0⟩ = .process_exit 0 :=
  ⟨⟨by decide, rfl⟩,
    (C8_shutdown_exit_paths ⟨1, -1, 0, 0, 0⟩ [] (by decide) rfl
      ⟨3, 0, 0, 0, 3, 0, 0, 0, 0, 0, fun _ => 0, 0,
        [⟨1, 4, false, 0⟩, ⟨1, -1, true, 0⟩], 0, fun _ => 0, 0, 0⟩
      (by simp [main_env.all_succeed, accept_loop])).2⟩

/-! ## Shutdown and the blocked threads -/

theorem wake_all_full_length (ts : List Waiter) : (wake_all_full ts).length = ts.length := by
  induction ts with
  | nil => rfl
  | cons t ts ih => cases t <;> simp [wake_all_full, ih]

theorem wake_all_empty_length (ts : List Waiter) : (wake_all_empty ts).length = ts.length := by
  induction ts with
  | nil => rfl
  | cons t ts ih => cases t <;> simp [wake_all_empty, ih]

theorem wake_all_woken (ts : List Waiter) (hb : ∀ t ∈ ts, t.is_blocked = true) :
    ∀ t ∈ wake_all_full (wake_all_empty ts), t.is_woken = true := by
  induction ts with
  | nil => intro t ht; simp [wake_all_empty, wake_all_full] at ht
  | cons a ts ih =>
    have ih2 := ih (fun t ht => hb t (List.mem_cons_of_mem _ ht))
    have ha := hb a (List.mem_cons_self _ _)
    cases a <;> simp [Waiter.is_blocked] at ha <;>
      simp only [wake_all_empty, wake_all_full, List.mem_cons] <;>
      rintro t (rfl | ht) <;> first | rfl | exact ih2 t ht

theorem apply_no_blocked (op : CondOp) (ts : List Waiter)
    (h : ∀ t ∈ ts, t.is_blocked = false) : op.apply ts = ts := by
  induction ts with
  | nil => cases op <;> rfl
  | cons a ts ih =>
    have ih2 := ih (fun t ht => h t (List.mem_cons_of_mem _ ht))
    have ha := h a (List.mem_cons_self _ _)
    cases op <;> cases a <;> simp [Waiter.is_blocked] at ha <;>
      simp_all [CondOp.apply, wake_one_empty, wake_one_full, wake_all_empty, wake_all_full]

theorem apply_wakes_no_blocked (ops : List CondOp) (ts : List Waiter)
    (h : ∀ t ∈ ts, t.is_blocked = false) : apply_wakes ops ts = ts := by
  induction ops with
  | nil => rfl
  | cons op ops ih => rw [apply_wakes, apply_no_blocked op ts h, ih]

theorem stopping_no_blocked (s : System) (hs : s.stopping) :
    ∀ t ∈ s.threads, t.is_blocked = false := by
  intro t ht
  rcases hs.2 t ht with h | h
  · cases t <;> simp_all [Waiter.is_woken, Waiter.is_blocked]
  · rw [h]; rfl

theorem set_same (l : List Waiter) (i : Nat) (a : Waiter) (h : l[i]? = some a) :
    l.set i a = l := by
  induction l generalizing i with
  | nil => rfl
  | cons b l ih =>
    cases i with
    | zero =>
      simp only [List.getElem?_cons_zero, Option.some.injEq] at h
      rw [h]; rfl
    | succ n =>
      simp only [List.getElem?_cons_succ] at h
      simp [ih n h]

theorem resume_stopping (CAPACITY : Nat) (p : pthread_rets) (s : System) (i : Nat)
    (hs : s.stopping) :
    s.resume CAPACITY p i = ⟨s.queue, s.threads.set i (.finished (-1))⟩ := by
  unfold System.resume
  rcases hi : s.threads[i]? with _ | t
  · have : s.threads.length ≤ i := List.getElem?_eq_none_iff.mp hi
    simp [List.set_eq_of_length_le this]
  · have hlt : i < s.threads.length := (List.getElem?_eq_some_iff.mp hi).1
    have hget : s.threads[i] = t := (List.getElem?_eq_some_iff.mp hi).2
    have hmem : t ∈ s.threads := hget ▸ List.getElem_mem hlt
    rcases hs.2 t hmem with hw | hf
    · cases t <;> simp [Waiter.is_woken] at hw
      · simp [enqueue_wake_after_shutdown CAPACITY p s.queue _ hs.1, apply_wakes]
      · simp [dequeue_wake_after_shutdown CAPACITY p s.queue hs.1, apply_wakes]
    · subst hf
      simp [set_same s.threads i _ hi]

theorem outside_stopping (CAPACITY : Nat) (p : pthread_rets) (s : System) (c : Call)
    (hs : s.stopping) :
    s.outside CAPACITY p c = ⟨(c.run CAPACITY p s.queue).queue, s.threads⟩ := by
  unfold System.outside
  simp [apply_wakes_no_blocked _ _ (stopping_no_blocked s hs)]

theorem step_stopping (CAPACITY : Nat) (p : pthread_rets) (s : System) (a : Action)
    (hs : s.stopping) :
    (s.step CAPACITY p a).stopping ∧
      (s.step CAPACITY p a).threads.length = s.threads.length ∧
      (∀ i : Nat, s.threads[i]? = some (Waiter.finished (-1)) →
        (s.step CAPACITY p a).threads[i]? = some (Waiter.finished (-1))) ∧
      (∀ i : Nat, a = .resume i → i < s.threads.length →
        (s.step CAPACITY p a).threads[i]? = some (Waiter.finished (-1))) := by
  cases a with
  | resume j =>
    simp only [System.step, resume_stopping CAPACITY p s j hs]
    refine ⟨⟨hs.1, fun t ht => ?_⟩, by simp, fun i hi => ?_, fun i hij hlt => ?_⟩
    · rcases List.mem_or_eq_of_mem_set ht with h | h
      · exact hs.2 t h
      · exact Or.inr h
    · by_cases hji : j = i
      · subst hji
        have hlt : j < s.threads.length := (List.getElem?_eq_some_iff.mp hi).1
        simp [hlt]
      · rw [List.getElem?_set_ne hji]; exact hi
    · cases hij
      simp [hlt]
  | outside c =>
    simp only [System.step, outside_stopping CAPACITY p s c hs]
    exact ⟨⟨shutdown_flag_kept CAPACITY p s.queue c hs.1, hs.2⟩, trivial, fun i hi => hi,
      fun i hij _ => by cases hij⟩

theorem run_stopping (CAPACITY : Nat) (sched : List (Action × pthread_rets)) (s : System)
    (hs : s.stopping) :
    (System.run CAPACITY s sched).stopping ∧
      ∀ i : Nat, i < s.threads.length →
        (s.threads[i]? = some (Waiter.finished (-1)) ∨ ∃ p, (Action.resume i, p) ∈ sched) →
        (System.run CAPACITY s sched).threads[i]? = some (Waiter.finished (-1)) := by
  induction sched generalizing s with
  | nil =>
    refine ⟨hs, fun i _ h => ?_⟩
    rcases h with h | ⟨p, hp⟩
    · exact h
    · simp at hp
  | cons ap rest ih =>
    obtain ⟨a, p⟩ := ap
    obtain ⟨hst, hlen, hkeep, hres⟩ := step_stopping CAPACITY p s a hs
    obtain ⟨ih1, ih2⟩ := ih (s.step CAPACITY p a) hst
    refine ⟨ih1, fun i hi h => ?_⟩
    apply ih2 i (by rw [hlen]; exact hi)
    rcases h with h | ⟨p', hp'⟩
    · exact Or.inl (hkeep i h)
    · rcases List.mem_cons.mp hp' with heq | hmem
      · have ha : a = .resume i := by
          have := congrArg Prod.fst heq
          exact this.symm
        exact Or.inl (hres i ha hi)
      · exact Or.inr ⟨p', hmem⟩

/-- C10: take any queue and any K threads blocked in connection_enqueue and M
threads blocked in connection_dequeue on it, in any order.  A successful call
to connection_queue_shutdown unblocks all K+M of them, and under every later
schedule (of these threads continuing and of other threads running queue calls,
whatever the pthread calls return) no thread is blocked again and every one of
the K+M threads that gets to run returns -1. -/
theorem C10_shutdown_wakes_all (CAPACITY : Nat) (q : connection_queue_t) (ts : List Waiter)
    (hb : ∀ t ∈ ts, t.is_blocked = true) (p : pthread_rets)
    (hp : p.lock = 0 ∧ p.broadcast_empty = 0 ∧ p.broadcast_full = 0 ∧ p.unlock = 0)
    (sched : List (Action × pthread_rets)) :
    (System.outside CAPACITY p ⟨q, ts⟩ .shutdown).threads.length = ts.length ∧
    (∀ t ∈ (System.outside CAPACITY p ⟨q, ts⟩ .shutdown).threads, t.is_woken = true) ∧
    (∀ t ∈ (System.run CAPACITY (System.outside CAPACITY p ⟨q, ts⟩ .shutdown) sched).threads,
      t.is_blocked = false) ∧
    (∀ i : Nat, i < ts.length → (∃ p', (Action.resume i, p') ∈ sched) →
      (System.run CAPACITY (System.outside CAPACITY p ⟨q, ts⟩ .shutdown) sched).threads[i]? =
        some (Waiter.finished (-1))) := by
  obtain ⟨h1, h2, h3, h4⟩ := hp
  have e : System.outside CAPACITY p ⟨q, ts⟩ .shutdown =
      ⟨{ q with shutdown := 1 }, wake_all_full (wake_all_empty ts)⟩ := by
    simp [System.outside, Call.run, connection_queue_shutdown, h1, h2, h3, h4, apply_wakes,
      CondOp.apply]
  have hw := wake_all_woken ts hb
  have hst : (System.outside CAPACITY p ⟨q, ts⟩ .shutdown).stopping := by
    rw [e]
    exact ⟨by simp, fun t ht => Or.inl (hw t ht)⟩
  have hlen : (System.outside CAPACITY p ⟨q, ts⟩ .shutdown).threads.length = ts.length := by
    rw [e]; simp [wake_all_full_length, wake_all_empty_length]
  obtain ⟨r1, r2⟩ := run_stopping CAPACITY sched _ hst
  refine ⟨hlen, ?_, stopping_no_blocked _ r1, fun i hi hsch => ?_⟩
  · rw [e]; exact hw
  · exact r2 i (by rw [hlen]; exact hi) (Or.inr hsch)

/-- Witness of C10 with CAPACITY = 1: two threads blocked in enqueue and one in
dequeue; after shutdown they run in the order 2, 0, 1 and all return -1. -/
theorem C10_shutdown_wakes_all_witness :
    System.run 1
        (System.outside 1 pthread_ok
          ⟨{ client_fds := [5], length := 1, read_idx := 0, write_idx := 0, shutdown := 0 },
            [.enqueue_blocked 6, .dequeue_blocked, .enqueue_blocked 7]⟩ .shutdown)
        [(.resume 2, pthread_ok), (.resume 0, pthread_ok), (.resume 1, pthread_ok)] =
      ⟨{ client_fds := [5], length := 1, read_idx := 0, write_idx := 0, shutdown := 1 },
        [.finished (-1), .finished (-1), .finished (-1)]⟩ ∧
    ∀ t ∈ (System.run 1
        (System.outside 1 pthread_ok
          ⟨{ client_fds := [5], length := 1, read_idx := 0, write_idx := 0, shutdown := 0 },
            [.enqueue_blocked 6, .dequeue_blocked, .enqueue_blocked 7]⟩ .shutdown)
        [(.resume 2, pthread_ok), (.resume 0, pthread_ok), (.resume 1, pthread_ok)]).threads,
      t.is_blocked = false :=
  ⟨by decide,
    (C10_shutdown_wakes_all 1
      { client_fds := [5], length := 1, read_idx := 0, write_idx := 0, shutdown := 0 }
      [.enqueue_blocked 6, .dequeue_blocked, .enqueue_blocked 7] (by decide) pthread_ok
      ⟨rfl, rfl, rfl, rfl⟩
      [(.resume 2, pthread_ok), (.resume 0, pthread_ok), (.resume 1, pthread_ok)]).2.2.1⟩

end HttpServer
